import Mathlib

/-
Verification of the foodgram backend (a recipe-sharing web application).

The development shallowly embeds the data model (`users/models.py`,
`recipes/models.py`) and the operations of `api/serializers.py` and
`api/views.py` that the verified properties are about: the shopping-list
aggregator, the recipe create/update write path with its validation, the
subscribe endpoint, the favorite/shopping-cart toggles, user creation and
the set-password flow.

Relational tables are embedded as lists of rows inside a `DB` record;
each endpoint becomes a state-passing function `DB → ... → result × DB`.
Python exceptions surface as an explicit error type: where the program
raises, the embedded function returns the corresponding error after
performing exactly the database writes the program performed before the
raise.  In particular, the recipe create/update requests die while DRF
builds `CreateRecipeSerializer`'s fields (its `Meta.fields` does not
match its declared fields), before any validator or write runs, and the
embedded request flows reflect that; the class's `validate` method —
dead code at runtime — is additionally embedded in isolation, since it
is what the analysed properties cite.
-/

deriving instance DecidableEq for Except

namespace Foodgram

/-! ## Data model -/

/-- Embeds `users.models.User`: id plus the fields the API reads and
writes.  `password` holds the stored password hash (Django stores a hash,
never the raw password). -/
structure UserRow where
  id : Nat
  email : String
  username : String
  first_name : String
  last_name : String
  password : String
deriving DecidableEq

/-- Embeds `recipes.models.Ingredient` (name and measurement unit). -/
structure IngredientRow where
  id : Nat
  name : String
  measurement_unit : String
deriving DecidableEq

/-- Embeds `recipes.models.Recipe`'s scalar columns.  `author` is nullable
(`on_delete=SET_NULL`).  The `name` column declares no uniqueness
constraint in the source.  The image column is orthogonal to every
verified property (base64/image handling is an excluded collaborator) and
is not modelled. -/
structure RecipeRow where
  id : Nat
  author : Option Nat
  name : String
  text : String
  cooking_time : Int
deriving DecidableEq

/-- Embeds `recipes.models.RecipeIngredient`, the through table between
recipes and ingredients carrying the `amount` column
(`PositiveSmallIntegerField`). -/
structure RIRow where
  recipe : Nat
  ingredient : Nat
  amount : Nat
deriving DecidableEq

/-- Embeds `recipes.models.Favorite`: one (user, recipe) join row. -/
structure FavoriteRow where
  user : Nat
  recipe : Nat
deriving DecidableEq

/-- Modelled from the spec: the `ShoppingCart` model is referenced by
`api/views.py`, `api/serializers.py` and `recipes/admin.py` but its class
definition is not among the provided sources.  Per the spec's data-model
table, a `ShoppingCartItem` is a (user, recipe) join row with the pair
unique; the reverse accessor used by the aggregator query
(`recipe__carts__user`) names it `carts`. -/
structure ShoppingCartRow where
  user : Nat
  recipe : Nat
deriving DecidableEq

/-- Embeds `users.models.Subscription`: a directed (user, author) edge. -/
structure SubscriptionRow where
  user : Nat
  author : Nat
deriving DecidableEq

/-- The relational store: one list of rows per table.  `recipeTags` is the
automatic through table behind `Recipe.tags` (pairs of recipe id and tag
id); tags themselves are kept as ids, their name/color/slug columns play
no role in the verified properties. -/
structure DB where
  users : List UserRow
  ingredients : List IngredientRow
  tags : List Nat
  recipes : List RecipeRow
  recipeIngredients : List RIRow
  recipeTags : List (Nat × Nat)
  favorites : List FavoriteRow
  carts : List ShoppingCartRow
  subscriptions : List SubscriptionRow
deriving DecidableEq

/-- The Python exceptions relevant to the embedded code.
`validationError` is DRF's `serializers.ValidationError`;
`assertionError` stands for the `AssertionError` (or, with assertions
disabled, `ImproperlyConfigured`) raised while DRF builds a broken
serializer's fields; `attributeError`, `typeError` and `keyError` are the
built-in exceptions the recipe `create`/`update` bodies would raise if
field construction ever let a request reach them. -/
inductive PyError where
  | validationError
  | assertionError
  | attributeError
  | typeError
  | keyError
deriving DecidableEq

/-! ## Shopping-list aggregator (`RecipeViewSet.download_shopping_cart`) -/

/-- Name of an ingredient id, via the join to the `Ingredient` table. -/
def ingredientName (db : DB) (iid : Nat) : String :=
  ((db.ingredients.find? (fun i => i.id == iid)).map IngredientRow.name).getD ""

/-- Measurement unit of an ingredient id, via the join to `Ingredient`. -/
def ingredientUnit (db : DB) (iid : Nat) : String :=
  ((db.ingredients.find? (fun i => i.id == iid)).map
    IngredientRow.measurement_unit).getD ""

/-- Embeds the queryset filter
`RecipeIngredient.objects.filter(recipe__carts__user=request.user)`:
all `RecipeIngredient` rows whose recipe has a cart row for user `u`.
The (user, recipe) pair is unique in the cart table, so the SQL join
yields each matching row once, i.e. exists-semantics. -/
def cartRows (db : DB) (u : Nat) : List RIRow :=
  db.recipeIngredients.filter
    (fun r => db.carts.any (fun c => c.user == u && c.recipe == r.recipe))

/-- The grouping key of the query: `.values('ingredient__name',
'ingredient__measurement_unit')`. -/
def keyOf (db : DB) (r : RIRow) : String × String :=
  (ingredientName db r.ingredient, ingredientUnit db r.ingredient)

/-- Order in which the grouped rows come back: the query orders by
`ingredient__name`; SQL leaves the order of equal names unspecified, the
embedding determinises ties by the measurement unit. -/
def keyLe (a b : String × String) : Prop :=
  a.1 < b.1 ∨ (a.1 = b.1 ∧ a.2 ≤ b.2)

instance : DecidableRel keyLe := fun _ _ =>
  inferInstanceAs (Decidable (_ ∨ _))

instance : IsTrans (String × String) keyLe where
  trans a b c hab hbc := by
    rcases hab with h1 | ⟨h1, h1'⟩ <;> rcases hbc with h2 | ⟨h2, h2'⟩
    · exact Or.inl (lt_trans h1 h2)
    · exact Or.inl (h2 ▸ h1)
    · exact Or.inl (h1 ▸ h2)
    · exact Or.inr ⟨h1.trans h2, le_trans h1' h2'⟩

instance : IsTotal (String × String) keyLe where
  total a b := by
    rcases lt_trichotomy a.1 b.1 with h | h | h
    · exact Or.inl (Or.inl h)
    · rcases le_total a.2 b.2 with h' | h'
      · exact Or.inl (Or.inr ⟨h, h'⟩)
      · exact Or.inr (Or.inr ⟨h.symm, h'⟩)
    · exact Or.inr (Or.inl h)

/-- The distinct (name, unit) grouping keys of the user's cart rows, in
the order the query returns the groups (ascending ingredient name). -/
def groupKeys (db : DB) (u : Nat) : List (String × String) :=
  List.insertionSort keyLe (((cartRows db u).map (keyOf db)).dedup)

/-- `.annotate(result_sum_ingr=Sum('amount'))`: the summed amount of one
(name, unit) group. -/
def sumFor (db : DB) (u : Nat) (k : String × String) : Nat :=
  (((cartRows db u).filter (fun r => keyOf db r == k)).map RIRow.amount).sum

/-- The grouped query result, one (name, summed amount, unit) triple per
group, mirroring the final `.values_list('ingredient__name',
'result_sum_ingr', 'ingredient__measurement_unit')`. -/
def shoppingList (db : DB) (u : Nat) : List (String × Nat × String) :=
  (groupKeys db u).map (fun k => (k.1, sumFor db u k, k.2))

/-- One formatted report line per group, as the view formats it. -/
def formatLine (g : String × Nat × String) : String :=
  g.1 ++ " - " ++ toString g.2.1 ++ " " ++ g.2.2 ++ "."

/-- The header the view prepends (its first character is a Latin `C` in
the source, reproduced here byte-for-byte, newline included). -/
def shoppingListHeader : String := "Cписок покупок:\n"

/-- Embeds the response body built by
`RecipeViewSet.download_shopping_cart`: the header followed by the
newline-joined formatted group lines. -/
def download_shopping_cart (db : DB) (u : Nat) : String :=
  shoppingListHeader ++
    String.intercalate "\n" ((shoppingList db u).map formatLine)

/-! ## Recipe write path (`CreateRecipeSerializer`) -/

/-- The deserialized payload of a recipe create/update request.  A field
the request omitted is `none`; `ingredients` entries are (ingredient id,
amount) pairs as validated by the nested ingredient serializer. -/
structure RecipeInput where
  name : Option String
  text : Option String
  cooking_time : Option Int
  tags : Option (List Nat)
  ingredients : Option (List (Nat × Nat))
deriving DecidableEq

/-- Python truthiness of `obj.get(field)` for a string field: falsy when
the key is absent or the value is the empty string. -/
def truthyStr : Option String → Bool
  | none => false
  | some s => !(s == "")

/-- Python truthiness of `obj.get('cooking_time')`: falsy when absent or
zero. -/
def truthyInt : Option Int → Bool
  | none => false
  | some n => !(n == 0)

/-- Python truthiness of `obj.get('tags')` / `obj.get('ingredients')`:
falsy when the key is absent or the list is empty. -/
def truthyList {α : Type} : Option (List α) → Bool
  | none => false
  | some l => !l.isEmpty

/-- Embeds `CreateRecipeSerializer.validate` (serializers.py 429-449):
requires truthy `name`, `text`, `cooking_time`, a non-empty tag list, a
non-empty ingredient list, and pairwise-distinct ingredient ids (the
source compares the id list's length with the length of its set); on
success it returns the input unchanged.  At runtime this method is dead
code: building the serializer's fields fails first (see
`createRecipeSerializerError`), so `is_valid` never reaches it.  It is
embedded in isolation because it is the cited validation logic and
records the rejection behavior the class prescribes. -/
def recipeValidate (obj : RecipeInput) : Except PyError RecipeInput :=
  if !truthyStr obj.name then .error .validationError
  else if !truthyStr obj.text then .error .validationError
  else if !truthyInt obj.cooking_time then .error .validationError
  else if !truthyList obj.tags then .error .validationError
  else if !truthyList obj.ingredients then .error .validationError
  else if ((obj.ingredients.getD []).map Prod.fst).length ≠
      ((obj.ingredients.getD []).map Prod.fst).dedup.length then
    .error .validationError
  else .ok obj

/-- The exception raised while DRF builds `CreateRecipeSerializer`'s
fields, which every recipe create/update request triggers inside
`is_valid` before any validator runs: `Meta.fields` (serializers.py line
592) lists the string `is_in-shopping_cart` (with a hyphen) while the
declared field (line 415) is named `is_in_shopping_cart`, so the declared
field is not included in `Meta.fields` and
`ModelSerializer.get_field_names` fails its declared-field assertion with
`AssertionError`.  The nested `RecipeIngredientSerializer` is
independently broken the same way: a missing comma in its `Meta.fields`
(lines 243-246) produces the entry `measurement_unitamount` and leaves
the declared `measurement_unit` unlisted, and the redundant
`source='id'` on its `id` field (lines 233-236) trips another DRF
assertion.  Field construction therefore always raises, with no database
access; `validate`, `create` and `update` are unreachable on these
requests. -/
def createRecipeSerializerError : PyError := .assertionError

/-- The POST /api/recipes/ flow: DRF instantiates
`CreateRecipeSerializer` and `is_valid` first builds the serializer's
fields, which raises `createRecipeSerializerError` — so every create
request fails with that server error before `validate` or `create` can
run and before any write; no Recipe row, tag association or ingredient
line is ever produced.  (Even the unreachable `create` body could not
attach them: serializers.py line 525 calls `self.create_ingredients_tags`,
a method that does not exist.) -/
def recipesPost (db : DB) (_author : Nat) (_obj : RecipeInput) :
    Except PyError Nat × DB :=
  (.error createRecipeSerializerError, db)

/-- The PATCH /api/recipes/{id}/ flow: the same serializer is
instantiated, so `is_valid` raises `createRecipeSerializerError` during
field construction before `validate` or `update` can run; the request
fails with that server error and no association is ever cleared,
reinserted or otherwise written.  (Even the unreachable `update` body
could not complete: it pops `tags`/`ingredients` without defaults and
then passes three positional arguments to the four-parameter
@staticmethod `ingredient_tag_in_recipe`.) -/
def recipesPatch (db : DB) (_instId : Nat) (_obj : RecipeInput) :
    Except PyError Nat × DB :=
  (.error createRecipeSerializerError, db)

/-! ## Subscriptions (`UserViewSet.subscribe`, `SubscribeSerialiser`) -/

/-- The writable payload `SubscribeSerialiser.is_valid` checks: of its
declared fields only the User model fields `first_name` and `last_name`
are writable (email/username/id and the three method fields are
read-only), and both are required, non-blank `CharField`s. -/
structure SubscribeData where
  first_name : Option String
  last_name : Option String
deriving DecidableEq

/-- Outcome of a subscribe POST. -/
inductive SubscribeResult where
  | notFound404
  | badRequest400
  | created201
deriving DecidableEq

/-- Whether a required non-blank CharField passes field validation. -/
def presentNonBlank : Option String → Bool
  | none => false
  | some s => !(s == "")

/-- Embeds the POST branch of `UserViewSet.subscribe` (views.py 173-220):
fetch the author by pk (404 when absent), run
`SubscribeSerialiser.is_valid(raise_exception=True)` — the serializer
declares **no** `validate` method and no comparison of `request.user`
with `author`, so validation only demands the required writable fields —
then unconditionally `Subscription.objects.create(user=request.user,
author=author)`. -/
def subscribePost (db : DB) (requester : Nat) (pk : Nat)
    (data : SubscribeData) : SubscribeResult × DB :=
  match db.users.find? (fun usr => usr.id == pk) with
  | none => (.notFound404, db)
  | some author =>
    if presentNonBlank data.first_name && presentNonBlank data.last_name then
      (.created201,
        { db with subscriptions :=
            db.subscriptions ++ [{ user := requester, author := author.id }] })
    else (.badRequest400, db)

/-! ## Engagement toggles (`RecipeViewSet.favorite` / `.shopping_cart`) -/

/-- HTTP outcomes of the engagement POST branches. -/
inductive HttpResp where
  | notFound404
  | badRequest400
  | created201
deriving DecidableEq

/-- Embeds the POST branch of `RecipeViewSet.favorite` (views.py
465-514): fetch the recipe (404 when absent); `RecipeSerializer` has only
read-only fields so `is_valid` always succeeds; if no Favorite row
(user, recipe) exists one is created (201), otherwise the view returns an
explicit 400 error response and writes nothing. -/
def favoritePost (db : DB) (u : Nat) (pk : Nat) : Option HttpResp × DB :=
  match db.recipes.find? (fun r => r.id == pk) with
  | none => (some .notFound404, db)
  | some r =>
    if db.favorites.any (fun f => f.user == u && f.recipe == r.id) then
      (some .badRequest400, db)
    else
      (some .created201,
        { db with favorites := db.favorites ++ [{ user := u, recipe := r.id }] })

/-- Embeds the POST branch of `RecipeViewSet.shopping_cart` (views.py
413-462): fetch the recipe (404 when absent); if no ShoppingCart row
(user, recipe) exists one is created (201); otherwise the function body
falls through past both `if` statements and returns Python `None` — no
row is written and no response object is produced. -/
def shoppingCartPost (db : DB) (u : Nat) (pk : Nat) : Option HttpResp × DB :=
  match db.recipes.find? (fun r => r.id == pk) with
  | none => (some .notFound404, db)
  | some r =>
    if db.carts.any (fun c => c.user == u && c.recipe == r.id) then
      (none, db)
    else
      (some .created201,
        { db with carts := db.carts ++ [{ user := u, recipe := r.id }] })

/-! ## User creation (`CreateUserSerializer`) -/

/-- A user-create request payload. -/
structure CreateUserInput where
  email : String
  username : String
  first_name : String
  last_name : String
  password : String
deriving DecidableEq

/-- The reserved names of `CreateUserSerializer.validate`
(serializers.py 92-99). -/
def invalid_usernames : List String :=
  ["me", "set_password", "subscriptions", "subscribe"]

/-- Embeds `CreateUserSerializer.validate`: reject when the request's
username is one of the reserved words, otherwise pass the data through. -/
def createUserValidate (inp : CreateUserInput) :
    Except PyError CreateUserInput :=
  if invalid_usernames.contains inp.username then .error .validationError
  else .ok inp

/-- A character admitted by the username `RegexValidator`
`^[\w.@+-]+\Z`: word characters (letters, digits, underscore) plus
dot, at, plus, minus. -/
def usernameCharOk (c : Char) : Bool :=
  c.isAlphanum || c == '_' || c == '.' || c == '@' || c == '+' || c == '-'

/-- The field-level validation the ModelSerializer machinery runs for a
user-create request: required non-blank email/username/first/last
name/password, the username pattern, and the model-level uniqueness of
email and username. -/
def createUserFieldsValid (db : DB) (inp : CreateUserInput) : Bool :=
  !(inp.email == "") &&
  !(db.users.any (fun usr => usr.email == inp.email)) &&
  !(inp.username == "") &&
  inp.username.data.all usernameCharOk &&
  !(db.users.any (fun usr => usr.username == inp.username)) &&
  !(inp.first_name == "") &&
  !(inp.last_name == "") &&
  !(inp.password == "")

/-- Id Django assigns to a newly inserted user row. -/
def nextUserId (db : DB) : Nat := (db.users.map UserRow.id).foldr max 0 + 1

/-- The POST /api/users/ flow: field validation and
`CreateUserSerializer.validate`, then `create`, which saves the user with
`set_password` (the stored value is `hash` of the raw password, where
`hash` stands for Django's password hasher). -/
def usersPost (hash : String → String) (db : DB) (inp : CreateUserInput) :
    Except PyError Nat × DB :=
  if !createUserFieldsValid db inp then (.error .validationError, db)
  else
    match createUserValidate inp with
    | .error e => (.error e, db)
    | .ok v =>
      let uid := nextUserId db
      (.ok uid,
        { db with users := db.users ++
            [{ id := uid, email := v.email, username := v.username,
               first_name := v.first_name, last_name := v.last_name,
               password := hash v.password }] })

/-! ## Set password (`SetPasswordSerializer.update`) -/

/-- Embeds `SetPasswordSerializer.update` (serializers.py 162-179) as a
transformer of the stored hash: `check_password` fails → ValidationError,
stored hash unchanged; new equals current → ValidationError, stored hash
unchanged; otherwise `set_password(new)` replaces the stored hash with
the hash of the new password.  `hash` stands for Django's password
hasher, `stored` for the user's stored hash. -/
def setPasswordUpdate (hash : String → String)
    (stored current newPw : String) : Except PyError Unit × String :=
  if !(hash current == stored) then (.error .validationError, stored)
  else if current == newPw then (.error .validationError, stored)
  else (.ok (), hash newPw)

/-! ## is_subscribed (`SubscriptionSerialiser` / `SubscribeSerialiser`) -/

/-- Embeds `get_is_subscribed` of `SubscriptionSerialiser`
(serializers.py 656-671) and `SubscribeSerialiser` (721-736), which share
the same body: `False` for an anonymous viewer (`viewer = none`) or when
the viewer is the serialized user, else whether a Subscription edge
(viewer, obj) exists. -/
def get_is_subscribed (db : DB) (viewer : Option Nat) (obj : Nat) : Bool :=
  match viewer with
  | none => false
  | some v =>
    if v == obj then false
    else db.subscriptions.any (fun s => s.user == v && s.author == obj)

/-! ## Concrete databases for witnesses and counterexamples -/

/-- A user row with the given id and distinct scalar fields. -/
def mkUser (i : Nat) : UserRow :=
  { id := i, email := "u" ++ toString i ++ "@e.co",
    username := "user" ++ toString i, first_name := "F",
    last_name := "L", password := "pw" ++ toString i }

/-- One user, empty everything else. -/
def dbEmptyCart : DB :=
  { users := [mkUser 1], ingredients := [], tags := [], recipes := [],
    recipeIngredients := [], recipeTags := [], favorites := [], carts := [],
    subscriptions := [] }

/-- A database with one user, one tag, one ingredient and no recipes:
the starting point for the create counterexamples. -/
def dbC2 : DB :=
  { users := [mkUser 1], ingredients := [⟨1, "flour", "g"⟩], tags := [1],
    recipes := [], recipeIngredients := [], recipeTags := [],
    favorites := [], carts := [], subscriptions := [] }

/-- A fully valid recipe-create payload against `dbC2`. -/
def objC2 : RecipeInput :=
  { name := some "soup", text := some "boil it", cooking_time := some 10,
    tags := some [1], ingredients := some [(1, 2)] }

/-- `dbC2` extended with an existing recipe already named `soup`. -/
def dbC5 : DB :=
  { dbC2 with
    recipes := [{ id := 1, author := some 1, name := "soup",
                  text := "old", cooking_time := 5 }] }

/-- A database whose recipe 1 has one ingredient line and one tag, and
whose recipe 2 keeps an ingredient line that update must not touch. -/
def dbC7 : DB :=
  { users := [mkUser 1], ingredients := [⟨1, "flour", "g"⟩, ⟨2, "salt", "g"⟩],
    tags := [1, 2],
    recipes := [{ id := 1, author := some 1, name := "soup",
                  text := "boil it", cooking_time := 10 },
                { id := 2, author := some 1, name := "tea",
                  text := "brew it", cooking_time := 3 }],
    recipeIngredients := [⟨1, 1, 3⟩, ⟨2, 1, 7⟩],
    recipeTags := [(1, 1)], favorites := [], carts := [],
    subscriptions := [] }

/-- A full update payload for recipe 1 of `dbC7`. -/
def objC7full : RecipeInput :=
  { name := some "soup2", text := some "boil more", cooking_time := some 12,
    tags := some [2], ingredients := some [(2, 5)] }

/-- The same update payload with the `tags` field omitted. -/
def objC7noTags : RecipeInput := { objC7full with tags := none }

/-- One user and no subscriptions: the self-subscribe starting state. -/
def dbC4 : DB := dbEmptyCart

/-- One recipe already favorited and already in user 1's cart. -/
def dbC6 : DB :=
  { dbC2 with
    recipes := [{ id := 1, author := some 1, name := "soup",
                  text := "boil it", cooking_time := 10 }],
    favorites := [{ user := 1, recipe := 1 }],
    carts := [{ user := 1, recipe := 1 }] }

/-- A user-create payload with the reserved username `me`. -/
def inpMe : CreateUserInput :=
  { email := "a@e.co", username := "me", first_name := "A",
    last_name := "B", password := "s3cret-pw" }

/-- A user-create payload with an ordinary, validation-passing
username. -/
def inpOk : CreateUserInput :=
  { email := "a@e.co", username := "alice", first_name := "A",
    last_name := "B", password := "s3cret-pw" }

/-- One subscription edge (1, 2), used by the is_subscribed witness. -/
def dbC10 : DB :=
  { dbEmptyCart with
    users := [mkUser 1, mkUser 2],
    subscriptions := [{ user := 1, author := 2 }] }

/-! ## Theorems -/

/-- C1: For every user, the shopping-list download collects all
RecipeIngredient rows whose recipe is in that user's cart, groups them by
(ingredient name, measurement unit) — the groups are exactly the key
pairs occurring among those rows, each listed once — sums `amount`
within each group, sorts the groups by ingredient name ascending, and
returns the header line followed by one line per group formatted
"name - summed amount unit."; for an empty cart the output is the header
line only. -/
theorem download_shopping_cart_spec (db : DB) (u : Nat) :
    ((shoppingList db u).map (fun g => (g.1, g.2.2))).Nodup
    ∧ (∀ k : String × String,
        k ∈ (shoppingList db u).map (fun g => (g.1, g.2.2)) ↔
          k ∈ (cartRows db u).map (keyOf db))
    ∧ (∀ g ∈ shoppingList db u, g.2.1 = sumFor db u (g.1, g.2.2))
    ∧ (shoppingList db u).Pairwise (fun g g' => g.1 ≤ g'.1)
    ∧ download_shopping_cart db u =
        shoppingListHeader ++
          String.intercalate "\n" ((shoppingList db u).map formatLine)
    ∧ (cartRows db u = [] →
        download_shopping_cart db u = shoppingListHeader) := by
  have hmap : (shoppingList db u).map (fun g => (g.1, g.2.2)) =
      groupKeys db u := by
    simp [shoppingList, List.map_map, Function.comp_def]
  refine ⟨?_, ?_, ?_, ?_, rfl, ?_⟩
  · rw [hmap]
    exact ((List.perm_insertionSort keyLe _).nodup_iff).mpr
      (List.nodup_dedup _)
  · intro k
    rw [hmap]
    unfold groupKeys
    rw [List.mem_insertionSort, List.mem_dedup]
  · intro g hg
    rcases List.mem_map.mp hg with ⟨k, _, rfl⟩
    simp
  · have hs : (groupKeys db u).Sorted keyLe :=
      List.sorted_insertionSort keyLe _
    have hp : (groupKeys db u).Pairwise (fun a b => a.1 ≤ b.1) := by
      refine hs.imp ?_
      intro a b hab
      rcases hab with h | ⟨h, _⟩
      · exact le_of_lt h
      · exact le_of_eq h
    unfold shoppingList
    rw [List.pairwise_map]
    exact hp
  · intro h
    unfold download_shopping_cart shoppingList groupKeys
    rw [h]
    simp [String.intercalate]

/-- Witness for C1 at a concrete input: user 1's cart is empty in
`dbEmptyCart`, and the download is the header line only. -/
theorem download_shopping_cart_spec_witness :
    cartRows dbEmptyCart 1 = [] ∧
      download_shopping_cart dbEmptyCart 1 = shoppingListHeader :=
  ⟨rfl, (download_shopping_cart_spec dbEmptyCart 1).2.2.2.2.2 rfl⟩

/-- C2 (code evaluated at the failing input): `objC2` is a fully valid
create payload — it passes the class's own `validate` method — yet the
create request fails with the AssertionError raised while DRF builds
`CreateRecipeSerializer`'s fields, before `validate` or `create` can run,
and the store is returned untouched: `dbC2` holds no recipe row, no tag
association and no ingredient line, so no recipe with the supplied tag
set and ingredient lines is ever produced, contradicting the claim. -/
theorem create_recipe_fields_assertion_error :
    recipeValidate objC2 = .ok objC2
    ∧ recipesPost dbC2 1 objC2 = (.error .assertionError, dbC2)
    ∧ dbC2.recipes = []
    ∧ dbC2.recipeTags = []
    ∧ dbC2.recipeIngredients = [] := by
  exact ⟨rfl, rfl, rfl, rfl, rfl⟩

/-- C3 (code evaluated at the failing input): the cited
`CreateRecipeSerializer.validate` method does prescribe ValidationError
for each case the claim lists — empty tag list, empty ingredient list,
missing name/text/cooking_time, repeated ingredient id — but at runtime
it is unreachable: the create request dies first with the AssertionError
raised while DRF builds the serializer's fields, so the request fails
with a server error, not ValidationError (the store is left unchanged
either way). -/
theorem recipe_create_validation_unreachable :
    recipeValidate { objC2 with tags := some [] } = .error .validationError
    ∧ recipeValidate { objC2 with ingredients := some [] }
        = .error .validationError
    ∧ recipeValidate { objC2 with name := none } = .error .validationError
    ∧ recipeValidate { objC2 with text := none } = .error .validationError
    ∧ recipeValidate { objC2 with cooking_time := none }
        = .error .validationError
    ∧ recipeValidate { objC2 with ingredients := some [(1, 2), (1, 3)] }
        = .error .validationError
    ∧ recipesPost dbC2 1 { objC2 with tags := some [] }
        = (.error .assertionError, dbC2)
    ∧ (.error .assertionError : Except PyError Nat)
        ≠ .error .validationError := by
  refine ⟨rfl, rfl, rfl, rfl, rfl, ?_, rfl, by decide⟩
  decide

/-- C4 (code evaluated at the failing input): user 1 POSTs a subscribe
request for author 1 (themself) with the serializer's required writable
fields supplied; no code path compares the requester with the author, so
the request succeeds with 201 and the subscription store ends up
containing an edge whose user equals its author, contradicting the
claim. -/
theorem self_subscription_edge_inserted :
    (subscribePost dbC4 1 1 { first_name := some "a", last_name := some "b" }).1
        = .created201
    ∧ (subscribePost dbC4 1 1
        { first_name := some "a", last_name := some "b" }).2.subscriptions
        = [{ user := 1, author := 1 }]
    ∧ ∃ e ∈ (subscribePost dbC4 1 1
        { first_name := some "a", last_name := some "b" }).2.subscriptions,
        e.user = e.author := by
  refine ⟨rfl, ?_, ?_⟩
  · decide
  · exact ⟨{ user := 1, author := 1 }, by decide, rfl⟩

/-- C5 counterexample: with a recipe named `soup` already stored, a
create payload reusing the name `soup` is not rejected with
ValidationError — `Recipe.name` carries no uniqueness constraint and the
class's `validate` method performs no duplicate-name check (the
same-named payload passes it) — the request instead fails, like every
recipe create, with the AssertionError from serializer field
construction, leaving the store unchanged. -/
theorem duplicate_recipe_name_not_rejected :
    (∃ r ∈ dbC5.recipes, r.name = "soup")
    ∧ objC2.name = some "soup"
    ∧ recipeValidate objC2 = .ok objC2
    ∧ recipesPost dbC5 1 objC2 = (.error .assertionError, dbC5)
    ∧ (recipesPost dbC5 1 objC2).1 ≠ .error .validationError := by
  exact ⟨⟨{ id := 1, author := some 1, name := "soup", text := "old",
            cooking_time := 5 }, by decide, rfl⟩, rfl, rfl, rfl, by decide⟩

/-- C5 amended: creating a recipe whose name is already in use is not
rejected as a duplicate — no duplicate-name check exists anywhere: a
payload whose fields satisfy the validate method's checks passes it
regardless of the names already stored, and the request's outcome is the
same as every recipe create's (the AssertionError from serializer field
construction, store unchanged), never a ValidationError. -/
theorem duplicate_recipe_name_not_checked (db : DB) (author : Nat)
    (obj : RecipeInput)
    (h : truthyStr obj.name = true ∧ truthyStr obj.text = true
       ∧ truthyInt obj.cooking_time = true ∧ truthyList obj.tags = true
       ∧ truthyList obj.ingredients = true
       ∧ ((obj.ingredients.getD []).map Prod.fst).Nodup) :
    recipeValidate obj = .ok obj
    ∧ recipesPost db author obj = (.error .assertionError, db)
    ∧ (recipesPost db author obj).1 ≠ .error .validationError := by
  obtain ⟨h1, h2, h3, h4, h5, h6⟩ := h
  have hdedup : ((obj.ingredients.getD []).map Prod.fst).dedup =
      (obj.ingredients.getD []).map Prod.fst :=
    List.dedup_eq_self.mpr h6
  refine ⟨?_, rfl, by simp [recipesPost, createRecipeSerializerError]⟩
  simp [recipeValidate, h1, h2, h3, h4, h5, hdedup]

/-- Witness for the amended C5 at a concrete input: against `dbC5`,
which already stores a recipe named `soup`, the same-named valid payload
`objC2` passes validate, and the request answers the uniform
AssertionError with the store unchanged — not ValidationError. -/
theorem duplicate_recipe_name_not_checked_witness :
    recipeValidate objC2 = .ok objC2
    ∧ recipesPost dbC5 1 objC2 = (.error .assertionError, dbC5)
    ∧ (recipesPost dbC5 1 objC2).1 ≠ .error .validationError :=
  duplicate_recipe_name_not_checked dbC5 1 objC2
    ⟨rfl, rfl, rfl, rfl, rfl, by decide⟩

/-- C6: duplicate engagement adds behave asymmetrically, and neither
path writes a second row: when the (user, recipe) favorite row already
exists (count 1), a second favorite add answers 400 Conflict and leaves
the store unchanged, the count staying 1; when the (user, recipe) cart
row already exists, a second cart add produces no response at all (the
view falls through and returns None) and leaves the store unchanged. -/
theorem duplicate_engagement_policies (db : DB) (u pk : Nat)
    (hr : ∃ r ∈ db.recipes, r.id = pk)
    (hfav : ∃ f ∈ db.favorites, f.user = u ∧ f.recipe = pk)
    (hfavcount : (db.favorites.countP
        (fun f => f.user == u && f.recipe == pk)) = 1)
    (hcart : ∃ c ∈ db.carts, c.user = u ∧ c.recipe = pk) :
    (favoritePost db u pk).1 = some .badRequest400
    ∧ (favoritePost db u pk).2 = db
    ∧ ((favoritePost db u pk).2.favorites.countP
        (fun f => f.user == u && f.recipe == pk)) = 1
    ∧ (shoppingCartPost db u pk).1 = none
    ∧ (shoppingCartPost db u pk).2 = db := by
  have hfind : ∃ r, db.recipes.find? (fun r => r.id == pk) = some r := by
    rcases hr with ⟨r, hrmem, hrid⟩
    have : (db.recipes.find? (fun r => r.id == pk)).isSome := by
      rw [List.find?_isSome]
      exact ⟨r, hrmem, by simp [hrid]⟩
    exact Option.isSome_iff_exists.mp this
  rcases hfind with ⟨r0, hr0⟩
  have hr0id : r0.id = pk := by
    have := List.find?_some hr0
    simpa using this
  have hfavany : db.favorites.any (fun f => f.user == u && f.recipe == r0.id)
      = true := by
    rcases hfav with ⟨f, hfm, hfu, hfr⟩
    rw [List.any_eq_true]
    exact ⟨f, hfm, by simp [hfu, hfr, hr0id]⟩
  have hcartany : db.carts.any (fun c => c.user == u && c.recipe == r0.id)
      = true := by
    rcases hcart with ⟨c, hcm, hcu, hcr⟩
    rw [List.any_eq_true]
    exact ⟨c, hcm, by simp [hcu, hcr, hr0id]⟩
  unfold favoritePost shoppingCartPost
  rw [hr0]
  simp only [hfavany, hcartany, if_true]
  simp [hfavcount]

/-- Witness for C6 at a concrete input: in `dbC6`, recipe 1 is already
favorited by user 1 (count 1) and already in user 1's cart; the second
favorite add answers 400 with the count still 1, the second cart add
returns nothing, and both leave `dbC6` unchanged. -/
theorem duplicate_engagement_policies_witness :
    (favoritePost dbC6 1 1).1 = some .badRequest400
    ∧ (favoritePost dbC6 1 1).2 = dbC6
    ∧ ((favoritePost dbC6 1 1).2.favorites.countP
        (fun f => f.user == 1 && f.recipe == 1)) = 1
    ∧ (shoppingCartPost dbC6 1 1).1 = none
    ∧ (shoppingCartPost dbC6 1 1).2 = dbC6 :=
  duplicate_engagement_policies dbC6 1 1
    ⟨{ id := 1, author := some 1, name := "soup", text := "boil it",
       cooking_time := 10 }, by decide, rfl⟩
    ⟨{ user := 1, recipe := 1 }, by decide, rfl, rfl⟩
    (by decide)
    ⟨{ user := 1, recipe := 1 }, by decide, rfl, rfl⟩

/-- C7 (code evaluated at the failing inputs): the guarded merge the
claim describes does not exist — every update request, whether it
supplies `tags`/`ingredients` or omits them, dies with the
AssertionError raised while DRF builds `CreateRecipeSerializer`'s
fields, before `validate` or `update` can run, so no association set is
ever cleared or reinserted on any request (the store, with recipe 1's
ingredient line and tag association intact, is returned unchanged in
both cases). -/
theorem recipe_update_not_clear_then_reinsert :
    recipesPatch dbC7 1 objC7full = (.error .assertionError, dbC7)
    ∧ recipesPatch dbC7 1 objC7noTags = (.error .assertionError, dbC7)
    ∧ dbC7.recipeIngredients = [{ recipe := 1, ingredient := 1, amount := 3 },
                                { recipe := 2, ingredient := 1, amount := 7 }]
    ∧ dbC7.recipeTags = [(1, 1)] := by
  exact ⟨rfl, rfl, rfl, rfl⟩

/-- C8: user creation rejects a request whose username is one of the
reserved words `me`, `set_password`, `subscriptions`, `subscribe` with a
ValidationError, writing no user row; and any request that passes field
validation with a non-reserved username is accepted — the new user row is
appended with exactly the supplied data. -/
theorem reserved_usernames_rejected (hash : String → String) (db : DB)
    (inp : CreateUserInput) :
    (inp.username ∈ invalid_usernames →
        usersPost hash db inp = (.error .validationError, db))
    ∧ (createUserFieldsValid db inp = true →
        inp.username ∉ invalid_usernames →
        (usersPost hash db inp).1 = .ok (nextUserId db)
        ∧ (usersPost hash db inp).2.users = db.users ++
            [{ id := nextUserId db, email := inp.email,
               username := inp.username, first_name := inp.first_name,
               last_name := inp.last_name,
               password := hash inp.password }]) := by
  constructor
  · intro hmem
    have hcontains : invalid_usernames.contains inp.username = true := by
      simpa using hmem
    unfold usersPost createUserValidate
    rw [hcontains]
    split <;> rfl
  · intro hfields hmem
    have hcontains : invalid_usernames.contains inp.username = false := by
      simpa using hmem
    unfold usersPost createUserValidate
    rw [hfields, hcontains]
    exact ⟨rfl, rfl⟩

/-- Witness for C8 at concrete inputs: against the one-user store, the
payload with username `me` is rejected leaving the store unchanged, and
the identical payload with username `alice` is accepted. -/
theorem reserved_usernames_rejected_witness :
    usersPost id dbEmptyCart inpMe = (.error .validationError, dbEmptyCart)
    ∧ (usersPost id dbEmptyCart inpOk).1 = .ok (nextUserId dbEmptyCart) :=
  ⟨(reserved_usernames_rejected id dbEmptyCart inpMe).1 (by decide),
   ((reserved_usernames_rejected id dbEmptyCart inpOk).2 (by decide)
      (by decide)).1⟩

/-- C9: the set-password update fails with ValidationError when the
supplied current password does not hash to the stored hash, and also when
the new password equals the current one; in both failure cases the stored
hash is returned unchanged, and only when both checks pass is the stored
hash replaced by the hash of the new password. -/
theorem set_password_spec (hash : String → String)
    (stored current newPw : String) :
    (hash current ≠ stored →
        setPasswordUpdate hash stored current newPw =
          (.error .validationError, stored))
    ∧ (current = newPw →
        setPasswordUpdate hash stored current newPw =
          (.error .validationError, stored))
    ∧ (hash current = stored → current ≠ newPw →
        setPasswordUpdate hash stored current newPw =
          (.ok (), hash newPw)) := by
  refine ⟨?_, ?_, ?_⟩
  · intro hne
    unfold setPasswordUpdate
    rw [if_pos]
    simpa using hne
  · intro heq
    unfold setPasswordUpdate
    split
    · rfl
    · rw [if_pos]
      simpa using heq
  · intro hh hne
    unfold setPasswordUpdate
    rw [if_neg, if_neg]
    · simpa using hne
    · simp [hh]

/-- Witness for C9 at concrete inputs (hash = id): a wrong current
password and an unchanged password are both rejected with the stored
hash intact, and a correct, different pair replaces the hash. -/
theorem set_password_spec_witness :
    setPasswordUpdate id "a" "x" "b" = (.error .validationError, "a")
    ∧ setPasswordUpdate id "a" "a" "a" = (.error .validationError, "a")
    ∧ setPasswordUpdate id "a" "a" "b" = (.ok (), "b") :=
  ⟨(set_password_spec id "a" "x" "b").1 (by decide),
   (set_password_spec id "a" "a" "a").2.1 rfl,
   (set_password_spec id "a" "a" "b").2.2 rfl (by decide)⟩

/-- C10: the serialized `is_subscribed` flag is false whenever the viewer
is anonymous or is the serialized user themself, regardless of the edges
stored; otherwise it is true exactly when a Subscription edge
(viewer, serialized user) exists. -/
theorem is_subscribed_spec (db : DB) (viewer : Option Nat) (obj : Nat) :
    (viewer = none → get_is_subscribed db viewer obj = false)
    ∧ (viewer = some obj → get_is_subscribed db viewer obj = false)
    ∧ (∀ v, viewer = some v → v ≠ obj →
        (get_is_subscribed db viewer obj = true ↔
          ∃ s ∈ db.subscriptions, s.user = v ∧ s.author = obj)) := by
  refine ⟨?_, ?_, ?_⟩
  · intro h
    rw [h]
    rfl
  · intro h
    rw [h]
    simp [get_is_subscribed]
  · intro v hv hne
    rw [hv]
    simp only [get_is_subscribed]
    rw [if_neg (by simpa using hne)]
    rw [List.any_eq_true]
    constructor
    · rintro ⟨s, hs, hp⟩
      exact ⟨s, hs, by simpa using hp⟩
    · rintro ⟨s, hs, h1, h2⟩
      exact ⟨s, hs, by simp [h1, h2]⟩

/-- Witness for C10 at concrete inputs: in `dbC10` (edge 1 → 2), the
flag is false for the anonymous viewer and for user 2 viewing
themself, and true for user 1 viewing user 2. -/
theorem is_subscribed_spec_witness :
    get_is_subscribed dbC10 none 2 = false
    ∧ get_is_subscribed dbC10 (some 2) 2 = false
    ∧ get_is_subscribed dbC10 (some 1) 2 = true :=
  ⟨(is_subscribed_spec dbC10 none 2).1 rfl,
   (is_subscribed_spec dbC10 (some 2) 2).2.1 rfl,
   ((is_subscribed_spec dbC10 (some 1) 2).2.2 1 rfl (by decide)).mpr
     ⟨{ user := 1, author := 2 }, by decide, rfl, rfl⟩⟩

end Foodgram
